import Mathlib

/-!
Verification of the Video-Caption-generator client against its specification.

The development shallowly embeds the repository's TypeScript sources:

* `src/frontend-vite/src/App.tsx` — the Client Controller (`onSubmit`), the
  Segment data model and the pure formatting functions `secondsToTimestamp`,
  `toSRT`, `toPlainText`;
* `src/frontend-vite/api/start-transcription.ts` — the Upload Submitter
  endpoint (`handler`, here `startTranscriptionHandler`, with the provider
  input construction factored out as `buildInput`);
* `src/frontend-vite/api/check-status.ts` — the Status Poller endpoint
  (`handler`, here `checkStatusHandler`, with the post-success transliteration
  pass factored out as `translitPass`).

JavaScript numbers are modelled as exact rationals (`ℚ`); JavaScript strings
as Lean `String`.  `Math.floor` is `Int.floor`, the JS `%` operator on
nonnegative operands is `jsFmod`, `String.prototype.padStart` is `jsPadStart`
and `Array.prototype.join` is `jsJoin`.
-/

namespace VCG

/-! ## Segment model (App.tsx lines 46-48) -/

/-- `type Language = 'en' | 'hi' | 'es' | 'fr' | 'de'` (App.tsx line 47). -/
inductive Language
  | en | hi | es | fr | de
deriving DecidableEq, Repr

/-- The string value each `Language` constructor denotes in the source. -/
def Language.code : Language → String
  | .en => "en"
  | .hi => "hi"
  | .es => "es"
  | .fr => "fr"
  | .de => "de"

/-- `type Segment = { index: number; start: number; end: number; text: string }`
(App.tsx line 48).  The numeric fields are JS numbers: `index` is an integer
in practice, `start` and `end` are (fractional) seconds. -/
structure Segment where
  index : ℤ
  start : ℚ
  «end» : ℚ
  text : String
deriving DecidableEq, Repr

/-! ## JS primitives used by the formatting functions -/

/-- JS truncation toward zero (the rounding used by the JS `%` operator). -/
def jsTrunc (q : ℚ) : ℤ := if 0 ≤ q then ⌊q⌋ else ⌈q⌉

/-- The JS `%` operator on numbers: `a - b * trunc(a / b)`. -/
def jsFmod (a b : ℚ) : ℚ := a - b * (jsTrunc (a / b) : ℚ)

/-- `String.prototype.padStart(z, c)`: left-pad to length `z` with `c`. -/
def jsPadStart (s : String) (z : ℕ) (c : Char) : String :=
  if s.length < z then String.mk (List.replicate (z - s.length) c) ++ s else s

/-- `Array.prototype.join(sep)`. -/
def jsJoin (sep : String) : List String → String
  | [] => ""
  | [x] => x
  | x :: y :: xs => x ++ sep ++ jsJoin sep (y :: xs)

/-! ## Formatting functions (App.tsx lines 51-73) -/

/-- `secondsToTimestamp` (App.tsx lines 51-58):

    const hrs  = Math.floor(seconds / 3600)
    const mins = Math.floor((seconds % 3600) / 60)
    const secs = Math.floor(seconds % 60)
    const ms   = Math.floor((seconds - Math.floor(seconds)) * 1000)
    return pad(hrs) : pad(mins) : pad(secs) , pad(ms, 3)
-/
def secondsToTimestamp (seconds : ℚ) : String :=
  jsPadStart (toString ⌊seconds / 3600⌋) 2 '0' ++ ":" ++
    jsPadStart (toString ⌊jsFmod seconds 3600 / 60⌋) 2 '0' ++ ":" ++
    jsPadStart (toString ⌊jsFmod seconds 60⌋) 2 '0' ++ "," ++
    jsPadStart (toString ⌊(seconds - (⌊seconds⌋ : ℚ)) * 1000⌋) 3 '0'

/-- The four lines pushed for one segment by the loop body of `toSRT`
(App.tsx lines 62-67). -/
def srtLines (s : Segment) : List String :=
  [toString s.index,
   secondsToTimestamp s.start ++ " --> " ++ secondsToTimestamp s.«end»,
   s.text,
   ""]

/-- The line array accumulated by the `for` loop of `toSRT`. -/
def srtAllLines : List Segment → List String
  | [] => []
  | s :: rest => srtLines s ++ srtAllLines rest

/-- `toSRT` (App.tsx lines 60-69): push the four lines per segment, then
`lines.join('\n')`. -/
def toSRT (segments : List Segment) : String :=
  jsJoin "\n" (srtAllLines segments)

/-- `toPlainText` (App.tsx lines 71-73): `segments.map(s => s.text).join('\n')`. -/
def toPlainText (segments : List Segment) : String :=
  jsJoin "\n" (segments.map (·.text))

/-! ## Client Controller (App.tsx lines 76-183)

The React component's state variables relevant to `onSubmit`, plus the list of
toast messages shown to the user (`react-hot-toast` calls; the transient
loading toast, which is replaced by the final toast of the same submission, is
not tracked). -/

/-- `task` state: `'transcribe' | 'translate' | 'transliterate'` (App.tsx line 81). -/
inductive Task
  | transcribe | translate | transliterate
deriving DecidableEq, Repr

/-- The string value each `Task` constructor denotes in the source. -/
def Task.code : Task → String
  | .transcribe => "transcribe"
  | .translate => "translate"
  | .transliterate => "transliterate"

/-- The `useState` variables of `App` that `onSubmit` reads or writes
(App.tsx lines 78-84), plus the log of toast messages shown. Files are
identified by name; the binary payload is irrelevant to every claim. -/
structure AppState where
  file : Option String
  language : Language
  task : Task
  isSubmitting : Bool
  error : Option String
  segments : Option (List Segment)
  toasts : List String
deriving DecidableEq, Repr

/-- The form data appended by `onSubmit` (App.tsx lines 154-157): one request
carries the file and the parameters captured by the `useCallback` closure. -/
structure PendingRequest where
  file : String
  language : Language
  task : Task
deriving DecidableEq, Repr

/-- The JSON body of a 2xx response as far as `onSubmit` reads it: the code
accesses only `data.segments` (App.tsx line 173); `status` and `error` fields
that a prediction-style body may carry are never read. -/
structure FetchBody where
  segments : Option (List Segment)
  status : Option String
  error : Option String
deriving DecidableEq, Repr

/-- The possible resolutions of the single `fetch` issued by `onSubmit`
(App.tsx lines 159-179):
* `ok`: `res.ok`, body parsed;
* `httpError`: non-2xx, body parsed, with the optional `detail` field;
* `httpUnparseable`: non-2xx and `res.json()` rejected, so the `catch` on
  line 168 substitutes `{ detail: 'Unknown error' }`;
* `networkThrow`: `fetch` itself rejected with an error whose optional
  `message` is `err?.message`. -/
inductive FetchOutcome
  | ok (body : FetchBody)
  | httpError (status : ℕ) (detail : Option String)
  | httpUnparseable (status : ℕ)
  | networkThrow (message : Option String)
deriving DecidableEq, Repr

/-- The user-facing message of a failed resolution, following the JS
truthiness of `errorData.detail || \x7bHTTP status\x7d` (line 169) and
`err?.message || 'Something went wrong'` (line 177). -/
def resolutionErrorMessage : FetchOutcome → Option String
  | .ok _ => none
  | .httpError status detail =>
    some (match detail with
          | some d => if d = "" then "HTTP " ++ toString status else d
          | none => "HTTP " ++ toString status)
  | .httpUnparseable _ => some "Unknown error"
  | .networkThrow message =>
    some (match message with
          | some m => if m = "" then "Something went wrong" else m
          | none => "Something went wrong")

/-- The synchronous prefix of `onSubmit` (App.tsx lines 141-157): with no file
selected it shows an error toast and returns without any network call;
otherwise it enters the submitting state, clears `error` and `segments`, and
issues exactly one request carrying the closure's file, language and task. -/
def onSubmitStart (s : AppState) : AppState × Option PendingRequest :=
  match s.file with
  | none => ({ s with toasts := s.toasts ++ ["Please select a file first."] }, none)
  | some f =>
    ({ s with isSubmitting := true, error := none, segments := none },
     some ⟨f, s.language, s.task⟩)

/-- The continuation of `onSubmit` after its `fetch` resolves (App.tsx lines
167-182): a 2xx response stores `data.segments` and shows the success toast;
any other resolution stores the error message and shows it; `finally` clears
`isSubmitting`. No field of the resolution is compared against the currently
active submission. -/
def applyResolution (s : AppState) (o : FetchOutcome) : AppState :=
  match o with
  | .ok body =>
    { s with segments := body.segments,
             toasts := s.toasts ++ ["Captions generated successfully!"],
             isSubmitting := false }
  | _ =>
    match resolutionErrorMessage o with
    | some msg =>
      { s with error := some msg, toasts := s.toasts ++ [msg], isSubmitting := false }
    | none => { s with isSubmitting := false }

/-- Step-indexed view of the awaited `fetch`: at each tick the pending request
either resolves (`resolveAt n = some o`) or stays pending. `onSubmit` contains
no timer, no retry and no attempt counter, so ticks without a resolution leave
the state untouched; a resolution is applied at most once because it clears
`isSubmitting`. -/
def tickFetch (resolveAt : ℕ → Option FetchOutcome) (s : AppState) : ℕ → AppState
  | 0 => s
  | n + 1 =>
    let prev := tickFetch resolveAt s n
    if prev.isSubmitting then
      match resolveAt n with
      | some o => applyResolution prev o
      | none => prev
    else prev

/-! ## Upload Submitter endpoint (api/start-transcription.ts) -/

/-- The fields of the parsed multipart form (`parseForm`, api/_lib/parse-form.ts)
used by the handler: `fields.language` and `fields.task` are strings. -/
structure StartFields where
  language : String
  task : String
deriving DecidableEq, Repr

/-- An uploaded file as the handler consumes it: its mimetype and its content
as already base64-encoded by `Buffer.toString('base64')` (the Node encoding
itself is an external library routine). -/
structure FileUpload where
  mimetype : String
  contentBase64 : String
deriving DecidableEq, Repr

/-- `data:$\x7bfile.mimetype\x7d;base64,...` (api/start-transcription.ts line 38). -/
def dataUriOf (f : FileUpload) : String :=
  "data:" ++ f.mimetype ++ ";base64," ++ f.contentBase64

/-- The fixed seed prompt supplied for transliteration
(api/start-transcription.ts line 53). -/
def transliterationSeedPrompt : String :=
  "सारे स्कूल के बच्चों, ध्यान से सुनना। 2004 में इंडियन ओशन में एक भयंकर सुनामी आई थी।"

/-- The `input` object sent to the Replicate Whisper model
(api/start-transcription.ts lines 42-54). `translate` and `initial_prompt`
are absent (`none`) unless the task-specific branches set them. -/
structure WhisperInput where
  audio : String
  language : String
  transcription : String
  translate : Option Bool
  initial_prompt : Option String
deriving DecidableEq, Repr

/-- Construction of the provider input (api/start-transcription.ts lines
42-54): base input from the form's language, then
`if (fields.task === 'translate') input.translate = true;` and
`if (fields.task === 'transliterate') { input.language = 'hi'; input.initial_prompt = ...; }`. -/
def buildInput (dataUri : String) (fields : StartFields) : WhisperInput :=
  let i : WhisperInput :=
    { audio := dataUri, language := fields.language,
      transcription := "verbose_json", translate := none, initial_prompt := none }
  let i := if fields.task = "translate" then { i with translate := some true } else i
  if fields.task = "transliterate" then
    { i with language := "hi", initial_prompt := some transliterationSeedPrompt }
  else i

/-- The observable result of the submit endpoint: HTTP status, the optional
`detail` message of an error body, and the provider job created (if any). -/
structure StartResult where
  status : ℕ
  detail : Option String
  created : Option WhisperInput
deriving DecidableEq, Repr

/-- `handler` of api/start-transcription.ts: `POST` only; rejects a missing
file with 400 `No file uploaded.` before any provider call; otherwise creates
exactly one prediction from `buildInput` and answers 202. -/
def startTranscriptionHandler (method : String) (file : Option FileUpload)
    (fields : StartFields) : StartResult :=
  if method ≠ "POST" then ⟨405, some "Method not allowed", none⟩
  else
    match file with
    | none => ⟨400, some "No file uploaded.", none⟩
    | some f => ⟨202, none, some (buildInput (dataUriOf f) fields)⟩

/-! ## Status Poller endpoint (api/check-status.ts) -/

/-- `prediction.output` as the handler uses it: the segment list. -/
structure PredictionOutput where
  segments : List Segment
deriving DecidableEq, Repr

/-- The prediction object returned by `replicate.predictions.get`
(api/check-status.ts line 38); `output` is absent until the job produces one,
`error` is the provider's error message if any. -/
structure Prediction where
  id : String
  status : String
  output : Option PredictionOutput
  error : Option String
deriving DecidableEq, Repr

/-- The no-op fallback bound to `transliterate` when `indic-transliteration`
cannot be loaded (api/check-status.ts line 5): `(text: string) => text`; the
scheme arguments passed at the call site are simply ignored by it. -/
def fallbackTransliterate (text : String) : String := text

/-- The post-success transliteration pass (api/check-status.ts lines 44-48):
`originalSegments.map(seg => (\x7b ...seg, text: transliterate(seg.text, ...) \x7d))`. -/
def translitPass (translit : String → String) (segs : List Segment) : List Segment :=
  segs.map fun seg => { seg with text := translit seg.text }

/-- A response of the poll endpoint: either an error body `{ detail }` or the
full prediction object. -/
inductive CheckPayload
  | detail (msg : String)
  | prediction (p : Prediction)
deriving DecidableEq, Repr

/-- HTTP status plus payload of the poll endpoint's response. -/
structure CheckResult where
  status : ℕ
  payload : CheckPayload
deriving DecidableEq, Repr

/-- `handler` of api/check-status.ts: `GET` only; requires an `id` query
parameter; fetches the prediction (passed here as `pred`); when the job
succeeded and the task is `transliterate` it replaces every segment's text via
the transliteration capability (accessing `prediction.output.segments`, which
throws into the catch-all 500 branch if `output` is absent); in every other
case it returns the prediction object verbatim with status 200. -/
def checkStatusHandler (method : String) (id : Option String)
    (task : Option String) (translit : String → String)
    (pred : Prediction) : CheckResult :=
  if method ≠ "GET" then ⟨405, .detail "Method not allowed"⟩
  else
    match id with
    | none => ⟨400, .detail "Missing prediction ID."⟩
    | some _ =>
      if pred.status = "succeeded" ∧ task = some "transliterate" then
        match pred.output with
        | some o =>
          ⟨200, .prediction { pred with output := some ⟨translitPass translit o.segments⟩ }⟩
        | none => ⟨500, .detail "Error checking status."⟩
      else ⟨200, .prediction pred⟩

/-- Modelled from the spec: the external Whisper model (the provider behind
`replicate.predictions.create`, not part of this repository) produces
English output when the `translate` flag of its input is set, and otherwise
transcribes in the requested source language. This captures the spec's
invariant vocabulary "output language" for a submitted job. -/
def effectiveOutputLanguage (i : WhisperInput) : String :=
  if i.translate = some true then "en" else i.language

/-! ## Independent timestamp components (the specification's reference) -/

/-- Hours component computed independently from the total truncated
millisecond count of `s`. -/
def refHours (s : ℚ) : ℕ := ⌊s * 1000⌋₊ / 3600000

/-- Minutes component computed independently from the total truncated
millisecond count of `s`. -/
def refMinutes (s : ℚ) : ℕ := ⌊s * 1000⌋₊ / 60000 % 60

/-- Seconds component computed independently from the total truncated
millisecond count of `s`. -/
def refSeconds (s : ℚ) : ℕ := ⌊s * 1000⌋₊ / 1000 % 60

/-- Milliseconds component computed independently from the total truncated
millisecond count of `s` (truncation toward zero for `s ≥ 0`). -/
def refMillis (s : ℚ) : ℕ := ⌊s * 1000⌋₊ % 1000

/-- The `HH:MM:SS,mmm` rendering built from the independently computed,
zero-padded components. -/
def refTimestamp (s : ℚ) : String :=
  jsPadStart (toString (refHours s)) 2 '0' ++ ":" ++
    jsPadStart (toString (refMinutes s)) 2 '0' ++ ":" ++
    jsPadStart (toString (refSeconds s)) 2 '0' ++ "," ++
    jsPadStart (toString (refMillis s)) 3 '0'

/-- One subtitle block: the four lines `toSRT` emits for a single segment,
joined by newlines (ending in a single newline because the fourth line is
empty). -/
def srtBlock (s : Segment) : String :=
  jsJoin "\n" (srtLines s)

/-!
# Helper lemmas
-/

/-- Rendering a natural number through `ℤ` gives the same string. -/
theorem toString_intCast_nat (n : ℕ) : toString ((n : ℤ)) = toString n := rfl

/-- A pending request that never resolves leaves the controller state
untouched at every tick: `onSubmit` contains no timer, retry or attempt
counter. -/
theorem tickFetch_never_resolves (s : AppState) :
    ∀ n, tickFetch (fun _ => none) s n = s
  | 0 => rfl
  | n + 1 => by
    simp [tickFetch, tickFetch_never_resolves s n]

/-- `jsJoin` distributes over concatenation of nonempty line lists. -/
theorem jsJoin_append_of_ne_nil (sep : String) :
    ∀ (a b : List String), a ≠ [] → b ≠ [] →
      jsJoin sep (a ++ b) = jsJoin sep a ++ sep ++ jsJoin sep b
  | [], _, ha, _ => absurd rfl ha
  | [x], b, _, hb => by
    match b with
    | [] => exact absurd rfl hb
    | y :: ys => simp [jsJoin]
  | x :: x2 :: xs, b, _, hb => by
    have ih := jsJoin_append_of_ne_nil sep (x2 :: xs) b (by simp) hb
    simp only [List.cons_append] at ih ⊢
    simp [jsJoin, ih, String.append_assoc]

/-- The lines of one segment form a nonempty list. -/
theorem srtLines_ne_nil (s : Segment) : srtLines s ≠ [] := by
  simp [srtLines]

/-- `srtAllLines` of a nonempty segment list is nonempty. -/
theorem srtAllLines_ne_nil (s : Segment) (rest : List Segment) :
    srtAllLines (s :: rest) ≠ [] := by
  cases rest <;> simp [srtAllLines, srtLines]

/-- `toSRT` is exactly one block per segment, in input order, blocks joined
with newlines. -/
theorem toSRT_eq_blocks :
    ∀ segs : List Segment, toSRT segs = jsJoin "\n" (segs.map srtBlock)
  | [] => rfl
  | s :: rest => by
    match rest with
    | [] =>
      simp [toSRT, srtAllLines, srtBlock, jsJoin]
    | r :: rr =>
      have ih := toSRT_eq_blocks (r :: rr)
      have h := jsJoin_append_of_ne_nil "\n" (srtLines s) (srtAllLines (r :: rr))
        (srtLines_ne_nil s) (srtAllLines_ne_nil r rr)
      calc toSRT (s :: r :: rr)
          = jsJoin "\n" (srtLines s ++ srtAllLines (r :: rr)) := rfl
        _ = jsJoin "\n" (srtLines s) ++ "\n" ++ jsJoin "\n" (srtAllLines (r :: rr)) := h
        _ = srtBlock s ++ "\n" ++ jsJoin "\n" ((r :: rr).map srtBlock) := by
            rw [← srtBlock]; rw [show jsJoin "\n" (srtAllLines (r :: rr)) = toSRT (r :: rr) from rfl, ih]
        _ = jsJoin "\n" ((s :: r :: rr).map srtBlock) := by
            simp [jsJoin]

/-!
# Claim theorems
-/

/-- C5: for every submitted request with task = translate and every one of the
five enumerated languages (en, hi, es, fr, de), the effective output language
of the submitted job is English regardless of the selected language. The
submit handler sets the provider input's `translate` flag for every language
choice, and the external Whisper contract (modelled from the spec) makes a
translate-flagged job produce English. -/
theorem C5_translate_forces_english :
    ∀ (uri : String) (l : Language),
      (buildInput uri ⟨l.code, "translate"⟩).translate = some true ∧
      effectiveOutputLanguage (buildInput uri ⟨l.code, "translate"⟩) = "en" := by
  intro uri l
  constructor <;> simp [buildInput, effectiveOutputLanguage]

/-- C4: for every submitted request with task = transliterate and every
user-selected language, the provider payload's source language is forced to
"hi" (Hindi) and the fixed seed prompt is supplied; and with the unavailable
transliteration capability (the identity fallback), the poll endpoint returns
a succeeded prediction with every output text unchanged. -/
theorem C4_transliterate_override_and_identity_fallback :
    (∀ (uri : String) (l : Language),
        (buildInput uri ⟨l.code, "transliterate"⟩).language = "hi" ∧
        (buildInput uri ⟨l.code, "transliterate"⟩).initial_prompt
          = some transliterationSeedPrompt) ∧
    (∀ (idp q : String) (segs : List Segment) (err : Option String),
        checkStatusHandler "GET" (some q) (some "transliterate") fallbackTransliterate
            ⟨idp, "succeeded", some ⟨segs⟩, err⟩
          = ⟨200, .prediction ⟨idp, "succeeded", some ⟨segs⟩, err⟩⟩) := by
  constructor
  · intro uri l
    constructor <;> simp [buildInput]
  · intro idp q segs err
    simp [checkStatusHandler, translitPass, fallbackTransliterate, List.map_id']

/-- C10: for every poll of a succeeded job with task = transliterate, the
post-success transliteration pass changes only each segment's text field:
segment count, order, and every `index`, `start` and `end` are unchanged. -/
theorem C10_translit_pass_preserves_frame :
    ∀ (f : String → String) (segs : List Segment),
      (translitPass f segs).length = segs.length ∧
      (translitPass f segs).map (·.index) = segs.map (·.index) ∧
      (translitPass f segs).map (·.start) = segs.map (·.start) ∧
      (translitPass f segs).map (·.«end») = segs.map (·.«end») := by
  intro f segs
  refine ⟨?_, ?_, ?_, ?_⟩ <;> simp [translitPass, List.map_map, Function.comp]

/-- C9: for every submission attempt with no file present, the Controller
fails fast with a user-visible error toast and issues no request, and the
submit endpoint rejects a fileless request with 400 `No file uploaded.`
before creating any provider job. -/
theorem C9_missing_file_validation :
    (∀ s : AppState, s.file = none →
        onSubmitStart s
          = ({ s with toasts := s.toasts ++ ["Please select a file first."] }, none)) ∧
    (∀ fields : StartFields,
        startTranscriptionHandler "POST" none fields
          = ⟨400, some "No file uploaded.", none⟩) := by
  constructor
  · intro s h
    unfold onSubmitStart
    rw [h]
  · intro fields
    rfl

/-- Witness for C9 at a concrete idle state and concrete form fields. -/
theorem C9_witness :
    onSubmitStart ⟨none, .en, .transcribe, false, none, none, []⟩
        = (⟨none, .en, .transcribe, false, none, none, ["Please select a file first."]⟩, none) ∧
    startTranscriptionHandler "POST" none ⟨"en", "transcribe"⟩
        = ⟨400, some "No file uploaded.", none⟩ :=
  ⟨C9_missing_file_validation.1 _ rfl, C9_missing_file_validation.2 _⟩

/-- C1 (amended): the Controller performs a single awaited request per
submission, with no poll loop, no configured maximum attempt count and no
timeout-kind error: if the request never resolves, the controller remains in
the submitting state with no error at every tick, for ever. -/
theorem C1_amended_no_timeout_single_request :
    ∀ (s0 : AppState) (f : String) (n : ℕ), s0.file = some f →
      tickFetch (fun _ => none) (onSubmitStart s0).1 n = (onSubmitStart s0).1 ∧
      ((onSubmitStart s0).1).error = none ∧
      ((onSubmitStart s0).1).isSubmitting = true := by
  intro s0 f n h
  refine ⟨tickFetch_never_resolves _ n, ?_, ?_⟩ <;> simp [onSubmitStart, h]

/-- Witness for C1 (amended) at a concrete submitted state and tick count. -/
theorem C1_witness :
    (⟨some "video.mp4", .en, .transcribe, false, none, none, []⟩ : AppState).file
        = some "video.mp4" ∧
    (tickFetch (fun _ => none)
        (onSubmitStart ⟨some "video.mp4", .en, .transcribe, false, none, none, []⟩).1 5
      = (onSubmitStart ⟨some "video.mp4", .en, .transcribe, false, none, none, []⟩).1 ∧
      ((onSubmitStart ⟨some "video.mp4", .en, .transcribe, false, none, none, []⟩).1).error = none ∧
      ((onSubmitStart ⟨some "video.mp4", .en, .transcribe, false, none, none, []⟩).1).isSubmitting
        = true) :=
  ⟨rfl, C1_amended_no_timeout_single_request _ "video.mp4" 5 rfl⟩

/-- Counterexample to C1 as stated: a job that never reaches a terminal
status leaves the controller still submitting, with no error of any kind
(in particular no timeout-kind error), even after 10^9 ticks — there is no
configured maximum attempt count after which an error state is entered. -/
theorem C1_counterexample :
    (tickFetch (fun _ => none)
        (onSubmitStart ⟨some "video.mp4", .en, .transcribe, false, none, none, []⟩).1
        1000000000).error = none ∧
    (tickFetch (fun _ => none)
        (onSubmitStart ⟨some "video.mp4", .en, .transcribe, false, none, none, []⟩).1
        1000000000).isSubmitting = true := by
  rw [tickFetch_never_resolves]
  exact ⟨rfl, rfl⟩

/-- C2 (amended): the Controller applies every resolution unconditionally in
arrival order — no response is tagged with the job it belongs to — so when a
superseded submission A resolves after its successor B, the current Segments
are overwritten with A's payload. -/
theorem C2_amended_last_resolution_wins :
    ∀ (s0 : AppState) (f : String) (bodyB bodyA : FetchBody), s0.file = some f →
      (applyResolution
          (applyResolution (onSubmitStart (onSubmitStart s0).1).1 (.ok bodyB))
          (.ok bodyA)).segments = bodyA.segments := by
  intro s0 f bB bA h
  simp [applyResolution]

/-- Witness for C2 (amended) at a concrete double-submission trace. -/
theorem C2_witness :
    (⟨some "a.mp4", .en, .transcribe, false, none, none, []⟩ : AppState).file = some "a.mp4" ∧
    (applyResolution
        (applyResolution
          (onSubmitStart
            (onSubmitStart ⟨some "a.mp4", .en, .transcribe, false, none, none, []⟩).1).1
          (.ok ⟨some [⟨1, 0, 1, "from job B"⟩], some "succeeded", none⟩))
        (.ok ⟨some [⟨1, 0, 1, "from job A"⟩], some "succeeded", none⟩)).segments
      = (⟨some [⟨1, 0, 1, "from job A"⟩], some "succeeded", none⟩ : FetchBody).segments :=
  ⟨rfl, C2_amended_last_resolution_wins _ "a.mp4" _ _ rfl⟩

/-- Counterexample to C2 as stated: submission A (resolving to segments
`from job A`) is superseded by submission B (resolving to `from job B`);
B resolves first, then A. The final Segments equal A's payload: they neither
still reflect B nor are empty. -/
theorem C2_counterexample :
    (applyResolution
        (applyResolution
          (onSubmitStart
            (onSubmitStart ⟨some "a.mp4", .en, .transcribe, false, none, none, []⟩).1).1
          (.ok ⟨some [⟨1, 0, 1, "from job B"⟩], some "succeeded", none⟩))
        (.ok ⟨some [⟨1, 0, 1, "from job A"⟩], some "succeeded", none⟩)).segments
      = some [⟨1, 0, 1, "from job A"⟩] ∧
    (applyResolution
        (applyResolution
          (onSubmitStart
            (onSubmitStart ⟨some "a.mp4", .en, .transcribe, false, none, none, []⟩).1).1
          (.ok ⟨some [⟨1, 0, 1, "from job B"⟩], some "succeeded", none⟩))
        (.ok ⟨some [⟨1, 0, 1, "from job A"⟩], some "succeeded", none⟩)).segments
      ≠ some [⟨1, 0, 1, "from job B"⟩] ∧
    (applyResolution
        (applyResolution
          (onSubmitStart
            (onSubmitStart ⟨some "a.mp4", .en, .transcribe, false, none, none, []⟩).1).1
          (.ok ⟨some [⟨1, 0, 1, "from job B"⟩], some "succeeded", none⟩))
        (.ok ⟨some [⟨1, 0, 1, "from job A"⟩], some "succeeded", none⟩)).segments
      ≠ none := by
  refine ⟨rfl, ?_, ?_⟩ <;> decide

/-- C3: the poll endpoint passes a provider-failed prediction through
verbatim — HTTP 200 with the original `error` string untouched — but the
shipped Controller, fed precisely that 2xx body, never enters the error
state: it stores the absent `segments` field, keeps `error = none` and shows
the success toast. The provider's message is not surfaced. -/
theorem C3_code_divergence_evaluation :
    checkStatusHandler "GET" (some "job-1") (some "translate") fallbackTransliterate
        ⟨"job-1", "failed", none, some "unsupported audio codec"⟩
      = ⟨200, .prediction ⟨"job-1", "failed", none, some "unsupported audio codec"⟩⟩ ∧
    (applyResolution
        (onSubmitStart (⟨some "a.mp4", .en, .translate, false, none, none, []⟩ : AppState)).1
        (.ok ⟨none, some "failed", some "unsupported audio codec"⟩)).error = none ∧
    (applyResolution
        (onSubmitStart (⟨some "a.mp4", .en, .translate, false, none, none, []⟩ : AppState)).1
        (.ok ⟨none, some "failed", some "unsupported audio codec"⟩)).segments = none ∧
    (applyResolution
        (onSubmitStart (⟨some "a.mp4", .en, .translate, false, none, none, []⟩ : AppState)).1
        (.ok ⟨none, some "failed", some "unsupported audio codec"⟩)).toasts
      = ["Captions generated successfully!"] :=
  ⟨rfl, rfl, rfl, rfl⟩

/-- Evaluation: `secondsToTimestamp 0 = "00:00:00,000"`. -/
theorem secondsToTimestamp_zero : secondsToTimestamp 0 = "00:00:00,000" := by
  simp only [secondsToTimestamp, jsFmod, jsTrunc]
  norm_num
  decide

/-- Evaluation: `secondsToTimestamp 2.5 = "00:00:02,500"`. -/
theorem secondsToTimestamp_five_halves :
    secondsToTimestamp (5 / 2) = "00:00:02,500" := by
  simp only [secondsToTimestamp, jsFmod, jsTrunc]
  norm_num
  decide

/-- Evaluation of the subtitle export of the spec's single-segment scenario:
the output ends in exactly one newline. -/
theorem toSRT_single_hello :
    toSRT [⟨1, 0, 5 / 2, "Hello"⟩] = "1\n00:00:00,000 --> 00:00:02,500\nHello\n" := by
  simp only [toSRT, srtAllLines, srtLines, List.append_nil,
    secondsToTimestamp_zero, secondsToTimestamp_five_halves]
  decide

/-- C6 (amended): subtitle serialization emits one block per Segment in input
order, blocks joined with newlines, where each block is
index, `start --> end`, text and an empty line joined with newlines — so each
block contributes a single trailing newline, and the single segment
(1, 0.0, 2.5, "Hello") serializes to
`"1\n00:00:00,000 --> 00:00:02,500\nHello\n"` (one trailing newline, not
two); no re-sorting and no merging of overlapping entries occurs. -/
theorem C6_amended_block_serialization :
    (∀ segs : List Segment, toSRT segs = jsJoin "\n" (segs.map srtBlock)) ∧
    toSRT [⟨1, 0, 5 / 2, "Hello"⟩] = "1\n00:00:00,000 --> 00:00:02,500\nHello\n" :=
  ⟨toSRT_eq_blocks, toSRT_single_hello⟩

/-- Counterexample to C6 as stated: the claimed serialization of the single
segment (1, 0.0, 2.5, "Hello") ends with a blank line (`...Hello\n\n`), but
the code's `lines.join('\n')` yields exactly one trailing newline. -/
theorem C6_counterexample :
    toSRT [⟨1, 0, 5 / 2, "Hello"⟩] ≠ "1\n00:00:00,000 --> 00:00:02,500\nHello\n\n" := by
  rw [toSRT_single_hello]
  decide

/-- The characters of a joined string are the intercalation of the parts. -/
theorem jsJoin_data (sep : String) :
    ∀ l : List String, (jsJoin sep l).data = List.intercalate sep.data (l.map (·.data))
  | [] => by simp [jsJoin, List.intercalate]
  | [x] => by simp [jsJoin, List.intercalate]
  | x :: y :: xs => by
    have ih := jsJoin_data sep (y :: xs)
    show (x ++ sep ++ jsJoin sep (y :: xs)).data = _
    rw [String.data_append, String.data_append, ih]
    simp [List.intercalate, List.intersperse]

/-- C8 (amended): for every nonempty Segment list whose texts contain no
newline character, splitting the plain-text serialization on newlines yields
exactly the list of segment texts, in original order (timestamps dropped);
in particular the line count equals the segment count. -/
theorem C8_amended_lines_of_plaintext :
    ∀ segs : List Segment, segs ≠ [] → (∀ s ∈ segs, '\n' ∉ s.text.data) →
      (toPlainText segs).data.splitOn '\n' = segs.map (·.text.data) ∧
      ((toPlainText segs).data.splitOn '\n').length = segs.length := by
  intro segs hne hnl
  have hdata : (toPlainText segs).data
      = List.intercalate ['\n'] (segs.map (·.text.data)) := by
    have h := jsJoin_data "\n" (segs.map (·.text))
    simpa [toPlainText, List.map_map, Function.comp] using h
  have hsplit : (toPlainText segs).data.splitOn '\n' = segs.map (·.text.data) := by
    rw [hdata]
    refine List.splitOn_intercalate _ '\n' ?_ ?_
    · intro l hl
      obtain ⟨s, hs, rfl⟩ := List.mem_map.1 hl
      exact hnl s hs
    · simpa using hne
  exact ⟨hsplit, by rw [hsplit, List.length_map]⟩

/-- Witness for C8 (amended) on a concrete two-segment list. -/
theorem C8_witness :
    (([⟨1, 0, 1, "hello"⟩, ⟨2, 1, 2, "world"⟩] : List Segment) ≠ []) ∧
    (∀ s ∈ ([⟨1, 0, 1, "hello"⟩, ⟨2, 1, 2, "world"⟩] : List Segment), '\n' ∉ s.text.data) ∧
    (toPlainText [⟨1, 0, 1, "hello"⟩, ⟨2, 1, 2, "world"⟩]).data.splitOn '\n'
        = [⟨1, 0, 1, "hello"⟩, ⟨2, 1, 2, "world"⟩].map (fun s : Segment => s.text.data) ∧
    ((toPlainText [⟨1, 0, 1, "hello"⟩, ⟨2, 1, 2, "world"⟩]).data.splitOn '\n').length = 2 :=
  ⟨by decide, by decide,
    (C8_amended_lines_of_plaintext _ (by decide) (by decide)).1,
    ((C8_amended_lines_of_plaintext
        [⟨1, 0, 1, "hello"⟩, ⟨2, 1, 2, "world"⟩] (by decide) (by decide)).2).trans rfl⟩

/-- Counterexample to C8 as stated: a single segment whose text itself
contains a newline serializes to two output lines, so the line count (2)
differs from the segment count (1). -/
theorem C8_counterexample :
    ¬ (((toPlainText [⟨1, 0, 1, "two\nlines"⟩]).data.splitOn '\n').length
        = ([⟨1, 0, 1, "two\nlines"⟩] : List Segment).length) := by
  decide

/-- Dividing the truncated millisecond count by 3600000 gives the floor of
the hour count. -/
theorem natFloor_msDiv_3600000 (s : ℚ) : ⌊s * 1000⌋₊ / 3600000 = ⌊s / 3600⌋₊ := by
  rw [← Nat.floor_div_nat (s * 1000) 3600000]
  congr 1
  push_cast
  ring

/-- Dividing the truncated millisecond count by 60000 gives the floor of the
minute count. -/
theorem natFloor_msDiv_60000 (s : ℚ) : ⌊s * 1000⌋₊ / 60000 = ⌊s / 60⌋₊ := by
  rw [← Nat.floor_div_nat (s * 1000) 60000]
  congr 1
  push_cast
  ring

/-- Dividing the truncated millisecond count by 1000 gives the floor of the
second count. -/
theorem natFloor_msDiv_1000 (s : ℚ) : ⌊s * 1000⌋₊ / 1000 = ⌊s⌋₊ := by
  rw [← Nat.floor_div_nat (s * 1000) 1000]
  congr 1
  push_cast
  ring

/-- Nested floors: minutes divided by 60 are hours. -/
theorem natFloor_minutes_div_60 (s : ℚ) : ⌊s / 60⌋₊ / 60 = ⌊s / 3600⌋₊ := by
  rw [← Nat.floor_div_nat (s / 60) 60]
  congr 1
  push_cast
  ring

/-- Nested floors: seconds divided by 60 are minutes. -/
theorem natFloor_seconds_div_60 (s : ℚ) : ⌊s⌋₊ / 60 = ⌊s / 60⌋₊ := by
  rw [← Nat.floor_div_nat s 60]
  norm_num

/-- The hour component of the code equals the independent hour component. -/
theorem floor_hours_eq (s : ℚ) (hs : 0 ≤ s) :
    ⌊s / 3600⌋ = ((⌊s * 1000⌋₊ / 3600000 : ℕ) : ℤ) := by
  rw [natFloor_msDiv_3600000]
  exact (Int.natCast_floor_eq_floor (by positivity)).symm

/-- The minute component of the code equals the independent minute component. -/
theorem floor_minutes_eq (s : ℚ) (hs : 0 ≤ s) :
    ⌊jsFmod s 3600 / 60⌋ = ((⌊s * 1000⌋₊ / 60000 % 60 : ℕ) : ℤ) := by
  have h36 : jsTrunc (s / 3600) = ⌊s / 3600⌋ := by
    unfold jsTrunc
    rw [if_pos (by positivity)]
  have harg : jsFmod s 3600 / 60 = s / 60 - ((60 * ⌊s / 3600⌋ : ℤ) : ℚ) := by
    unfold jsFmod
    rw [h36]
    push_cast
    ring
  rw [harg, Int.floor_sub_int, natFloor_msDiv_60000]
  have e1 : ⌊s / 60⌋ = ((⌊s / 60⌋₊ : ℕ) : ℤ) :=
    (Int.natCast_floor_eq_floor (by positivity)).symm
  have e2 : ⌊s / 3600⌋ = ((⌊s / 60⌋₊ / 60 : ℕ) : ℤ) := by
    rw [natFloor_minutes_div_60]
    exact (Int.natCast_floor_eq_floor (by positivity)).symm
  rw [e1, e2]
  omega

/-- The second component of the code equals the independent second component. -/
theorem floor_seconds_eq (s : ℚ) (hs : 0 ≤ s) :
    ⌊jsFmod s 60⌋ = ((⌊s * 1000⌋₊ / 1000 % 60 : ℕ) : ℤ) := by
  have h60 : jsTrunc (s / 60) = ⌊s / 60⌋ := by
    unfold jsTrunc
    rw [if_pos (by positivity)]
  have harg : jsFmod s 60 = s - ((60 * ⌊s / 60⌋ : ℤ) : ℚ) := by
    unfold jsFmod
    rw [h60]
    push_cast
    ring
  rw [harg, Int.floor_sub_int, natFloor_msDiv_1000]
  have e1 : ⌊s⌋ = ((⌊s⌋₊ : ℕ) : ℤ) := (Int.natCast_floor_eq_floor hs).symm
  have e2 : ⌊s / 60⌋ = ((⌊s⌋₊ / 60 : ℕ) : ℤ) := by
    rw [natFloor_seconds_div_60]
    exact (Int.natCast_floor_eq_floor (by positivity)).symm
  rw [e1, e2]
  omega

/-- The millisecond component of the code (truncation of the fractional part
times 1000) equals the independent millisecond component. -/
theorem floor_millis_eq (s : ℚ) (hs : 0 ≤ s) :
    ⌊(s - (⌊s⌋ : ℚ)) * 1000⌋ = ((⌊s * 1000⌋₊ % 1000 : ℕ) : ℤ) := by
  have harg : (s - (⌊s⌋ : ℚ)) * 1000 = s * 1000 - ((1000 * ⌊s⌋ : ℤ) : ℚ) := by
    push_cast
    ring
  rw [harg, Int.floor_sub_int]
  have e1 : ⌊s * 1000⌋ = ((⌊s * 1000⌋₊ : ℕ) : ℤ) :=
    (Int.natCast_floor_eq_floor (by positivity)).symm
  have e2 : ⌊s⌋ = ((⌊s * 1000⌋₊ / 1000 : ℕ) : ℤ) := by
    rw [natFloor_msDiv_1000]
    exact (Int.natCast_floor_eq_floor hs).symm
  rw [e1, e2]
  omega

/-- C7: for every seconds value s with 0 ≤ s < 360000, the rendered timestamp
equals the zero-padded `HH:MM:SS,mmm` string built from hour, minute, second
and millisecond components computed independently from the total truncated
(not rounded) millisecond count of s. -/
theorem C7_timestamp_components_roundtrip (s : ℚ) (hs : 0 ≤ s) (_hlt : s < 360000) :
    secondsToTimestamp s = refTimestamp s := by
  unfold secondsToTimestamp refTimestamp refHours refMinutes refSeconds refMillis
  rw [floor_hours_eq s hs, floor_minutes_eq s hs, floor_seconds_eq s hs,
    floor_millis_eq s hs]
  simp only [toString_intCast_nat]

/-- Witness for C7 at the concrete value s = 3661 (1h 1m 1s). -/
theorem C7_witness :
    ((0 : ℚ) ≤ 3661) ∧ ((3661 : ℚ) < 360000) ∧
      secondsToTimestamp 3661 = refTimestamp 3661 :=
  ⟨by decide, by decide, C7_timestamp_components_roundtrip 3661 (by decide) (by decide)⟩

end VCG
